import Mathlib

/-!
Shallow embedding of the marketing_agent outreach pipeline
(intent parser, channel selector, message generator, campaign
orchestrator, approval handlers and follow-up engine), together with
proofs about the embedded definitions.

Conventions used throughout:
* TypeScript `number` scores and confidences are embedded as `Rat`
  (every constant in the source is an exact decimal).
* JavaScript `Date` values are embedded as `Int` milliseconds since the
  epoch; `Date.now()` becomes an explicit `now : Int` argument.
* Optional TS fields become `Option`; the JS truthiness test on an
  optional string (`undefined` and `""` are falsy) is `jsTruthy`.
* `Math.random()`-derived id suffixes become explicit arguments: the
  source only ever uses them inside freshly generated id strings.
* Strings are manipulated through their character lists (`String.data`)
  so that every operation is a structurally recursive, kernel-reducible
  function.
-/

-- ============================================
-- JS string helpers
-- ============================================

/-- JS truthiness of an optional string: `undefined` and `""` are falsy. -/
def jsTruthy : Option String → Bool
  | none => false
  | some s => !(s = "")

/-- JS `a || b` for an optional string `a` and default `b`
(`undefined` and `""` fall through to the default). -/
def jsOr (a : Option String) (b : String) : String :=
  match a with
  | none => b
  | some s => if s = "" then b else s

/-- JS `\s` whitespace class (the ASCII members that can occur here). -/
def isJsSpace (c : Char) : Bool :=
  c = ' ' || c = '\t' || c = '\n' || c = '\x0d' || c = '\x0b' || c = '\x0c'

/-- JS `\d` digit class. -/
def isJsDigit (c : Char) : Bool :=
  '0' ≤ c && c ≤ '9'

/-- JS `\w` word-character class. -/
def isJsWord (c : Char) : Bool :=
  ('a' ≤ c && c ≤ 'z') || ('A' ≤ c && c ≤ 'Z') || ('0' ≤ c && c ≤ '9') || c = '_'

/-- Substring containment on character lists (JS `String.includes`). -/
def containsSub (pat : List Char) : List Char → Bool
  | [] => pat.isEmpty
  | c :: cs => pat.isPrefixOf (c :: cs) || containsSub pat cs

/-- JS `String.trim`: drop `\s` characters from both ends. -/
def jsTrim (s : List Char) : List Char :=
  ((s.dropWhile isJsSpace).reverse.dropWhile isJsSpace).reverse

/-- One left-to-right pass of JS `String.replace(/pat/g, rep)` with a
literal (non-empty) pattern; `fuel` bounds the scan and is instantiated
with the length of the subject string. -/
def replaceAllAux (pat rep : List Char) : Nat → List Char → List Char
  | _, [] => []
  | 0, s => s
  | fuel + 1, c :: cs =>
    if pat ≠ [] ∧ pat.isPrefixOf (c :: cs) then
      rep ++ replaceAllAux pat rep fuel ((c :: cs).drop pat.length)
    else
      c :: replaceAllAux pat rep fuel cs

/-- JS `String.replace(/pat/g, rep)` for a literal pattern (the source
only ever replaces literal `\x7b\x7bname\x7d\x7d` tokens; `$`-escapes in
the replacement are not modelled). -/
def replaceAll (s pat rep : String) : String :=
  ⟨replaceAllAux pat.data rep.data s.data.length s.data⟩

/-- JS `String.substring(0, n)` (also `Array.slice(0, n)` on strings). -/
def jsTake (s : String) (n : Nat) : String := ⟨s.data.take n⟩

/-- ASCII lowercase of a string, the fragment of JS `toLowerCase` that
the source relies on. -/
def jsToLower (s : String) : List Char := s.data.map Char.toLower

/-- JS `Math.min` on two numbers. -/
def jsMin (a b : Rat) : Rat := if a ≤ b then a else b

-- ============================================
-- Enumerated types (src/types part_003)
-- ============================================

inductive OutreachChannel
  | email | dm | whatsapp | generic
  deriving DecidableEq, Repr

inductive TargetType
  | restaurant_owner | hotel_owner | startup_founder | creator
  | real_estate_broker | business_owner | professional | generic
  deriving DecidableEq, Repr

inductive OutreachPurpose
  | partnership | influencer_collaboration | hiring | brand_deal
  | referral | sales | networking | general
  deriving DecidableEq, Repr

inductive MessageTone
  | professional | casual | direct | friendly
  deriving DecidableEq, Repr

inductive MessageStatus
  | draft | approved | pending | sending | sent | delivered
  | opened | clicked | replied | bounced | failed | cancelled
  deriving DecidableEq, Repr

inductive DataQuality
  | high | medium | low
  deriving DecidableEq, Repr

inductive FollowUpTrigger
  | unopened_after_days | opened_no_reply | clicked_no_reply | bounced | manual
  deriving DecidableEq, Repr

-- ============================================
-- Record types (src/types part_003)
-- ============================================

/-- `Target` (unused optional fields `socialHandles`, `enrichedAt` and
`metadata` omitted: no embedded function reads them). -/
structure Target where
  id : String
  name : String
  title : Option String := none
  company : Option String := none
  website : Option String := none
  email : Option String := none
  phone : Option String := none
  location : Option String := none
  niche : Option String := none
  description : Option String := none
  source : String
  relevanceScore : Rat
  dataQuality : DataQuality
  discoveredAt : Int
  deriving DecidableEq, Repr

structure PersonalizationPoints where
  companyReference : Bool
  recentNewsReference : Bool
  mutualConnection : Bool
  nicheSpecific : Bool
  locationSpecific : Bool
  customHooks : List String
  deriving DecidableEq, Repr

/-- `MessageDraft` (unused optional fields `variations`, `deliveredAt`,
`openedAt`, `clickedAt`, `bouncedAt` omitted: no embedded function reads
them). -/
structure MessageDraft where
  id : String
  targetId : String
  target : Target
  channel : OutreachChannel
  subject : Option String := none
  body : String
  tone : MessageTone
  personalization : PersonalizationPoints
  qualityScore : Rat
  status : MessageStatus
  generatedAt : Int
  sentAt : Option Int := none
  deriving DecidableEq, Repr

structure OutreachIntent where
  channel : OutreachChannel
  targetType : TargetType
  targetNiche : Option String := none
  location : Option String := none
  purpose : OutreachPurpose
  purposeDescription : Option String := none
  count : Nat
  tone : Option MessageTone := none
  deriving DecidableEq, Repr

structure ParsedIntent where
  rawInput : String
  channel : OutreachChannel
  targetType : TargetType
  targetNiche : Option String := none
  location : Option String := none
  purpose : String
  purposeDescription : String
  count : Nat
  tone : MessageTone
  confidence : Rat
  suggestions : List String
  deriving DecidableEq, Repr

structure MessageTemplate where
  id : String
  channel : OutreachChannel
  targetType : TargetType
  purpose : OutreachPurpose
  tone : MessageTone
  subject : Option String := none
  template : String
  -- TS field name: `variables` (a reserved word in Lean)
  vars : List String
  deriving DecidableEq, Repr

inductive CampaignStatus
  | draft | discovering | generating | pending_approval
  | active | paused | completed | cancelled
  deriving DecidableEq, Repr

structure CampaignStats where
  totalTargets : Nat
  approvedMessages : Nat
  sentMessages : Nat
  deliveredMessages : Nat
  openedMessages : Nat
  clickedMessages : Nat
  repliedMessages : Nat
  bouncedMessages : Nat
  failedMessages : Nat
  deriving DecidableEq, Repr

structure CampaignSettings where
  channel : OutreachChannel
  followUpEnabled : Bool
  followUpDelay : Nat
  followUpMaxAttempts : Nat
  trackOpens : Bool
  trackClicks : Bool
  deriving DecidableEq, Repr

structure Campaign where
  id : String
  name : String
  intent : OutreachIntent
  status : CampaignStatus
  targets : List Target
  messages : List MessageDraft
  stats : CampaignStats
  settings : CampaignSettings
  createdAt : Int
  updatedAt : Int
  deriving DecidableEq, Repr

-- ============================================
-- A small matcher for the JS regexes of intentParser.ts
-- ============================================

/-!
Every regex in `intentParser.ts` is built from literal text, the classes
`\s+` `\d+` `\w+`, word boundaries `\b`, alternation, and optional
groups; all carry the `/i` flag and are applied to an input that has
already been lowercased, so patterns are transcribed in lowercase and
matched case-sensitively. `Pat` is that fragment; `matchHere` returns
the possible `(consumed, rest)` splits in the JS backtracking preference
order (alternation tries the left branch first, optional groups and the
greedy `+` try the longest consumption first), so the head of the list
is the JS match at a given start position.
-/

inductive Pat
  | lit (s : List Char)
  | cls (p : Char → Bool)
  | seq (p q : Pat)
  | alt (p q : Pat)
  | opt (p : Pat)
  | plus (p : Char → Bool)
  | wb

namespace Pat

/-- All splits of the maximal run of `p`-characters, longest first
(greedy `+`), paired with the remaining input. -/
def plusSplits (p : Char → Bool) (s : List Char) : List (List Char × List Char) :=
  let run := s.takeWhile p
  let rest := s.drop run.length
  (List.range run.length).map fun j =>
    let k := run.length - j
    (run.take k, run.drop k ++ rest)

/-- `true` when a word boundary separates `prev` from the next input
character. -/
def boundaryAt (prev : Option Char) (next : Option Char) : Bool :=
  (prev.elim false isJsWord) != (next.elim false isJsWord)

/-- Matches of a pattern at the start of `s` in preference order; `prev`
is the character just before `s` (for `\b`). -/
def matchHere : Pat → Option Char → List Char → List (List Char × List Char)
  | lit l, _, s => if l.isPrefixOf s then [(l, s.drop l.length)] else []
  | cls p, _, s =>
    match s with
    | [] => []
    | c :: cs => if p c then [([c], cs)] else []
  | seq p q, prev, s =>
    (matchHere p prev s).flatMap fun (c1, r1) =>
      (matchHere q (c1.getLast?.elim prev some) r1).map fun (c2, r2) =>
        (c1 ++ c2, r2)
  | alt p q, prev, s => matchHere p prev s ++ matchHere q prev s
  | opt p, prev, s => matchHere p prev s ++ [([], s)]
  | plus p, _, s => plusSplits p s
  | wb, prev, s => if boundaryAt prev s.head? then [([], s)] else []

/-- JS `RegExp.test`: does the pattern match starting at some position? -/
def testFrom (p : Pat) : Option Char → List Char → Bool
  | prev, [] => !(matchHere p prev []).isEmpty
  | prev, c :: cs => !(matchHere p prev (c :: cs)).isEmpty || testFrom p (some c) cs

def test (p : Pat) (s : List Char) : Bool := testFrom p none s

/-- JS `String.match(pat)[0]`: the leftmost match, with the JS
preference order deciding its extent. -/
def firstFrom (p : Pat) : Option Char → List Char → Option (List Char)
  | prev, [] => (matchHere p prev []).head?.map Prod.fst
  | prev, c :: cs =>
    match (matchHere p prev (c :: cs)).head?.map Prod.fst with
    | some m => some m
    | none => firstFrom p (some c) cs

def firstMatch (p : Pat) (s : List Char) : Option (List Char) := firstFrom p none s

/-- `seq` over a list of patterns. -/
def seqs : List Pat → Pat
  | [] => lit []
  | [p] => p
  | p :: ps => seq p (seqs ps)

/-- `alt` over a list of patterns (left to right). -/
def alts : List Pat → Pat
  | [] => lit []
  | [p] => p
  | p :: ps => alt p (alts ps)

/-- Literal word from a string literal. -/
def w (s : String) : Pat := lit s.data

/-- `\s+` -/
def wsp : Pat := plus isJsSpace

/-- `\d+` -/
def digits : Pat := plus isJsDigit

/-- `\w+` -/
def wordChars : Pat := plus isJsWord

/-- `[s]?` / `s?` -/
def optS : Pat := opt (w "s")

end Pat

-- ============================================
-- intentParser.ts: pattern tables
-- ============================================

open Pat in
/-- `CHANNEL_PATTERNS`, in `Object.entries` order. -/
def CHANNEL_PATTERNS : List (OutreachChannel × List Pat) :=
  [ (.email,
      [ seqs [wb, w "email", wsp, digits],                             -- /\bemail\s+\d+/i
        seqs [wb, w "email", wsp, alts [w "me", w "us", w "them"]],    -- /\bemail\s+(me|us|them)/i
        seqs [wb, w "send", wsp, opt (seqs [w "a", opt (w "n"), wsp]),
              w "email"],                                              -- /\bsend\s+(an?\s+)?email/i
        seqs [wb, w "via", wsp, w "email"],                            -- /\bvia\s+email/i
        seqs [wb, w "mail", wsp, w "to"],                              -- /\bmail\s+to/i
        seqs [wb, w "write", wsp, alts [w "them", w "him", w "her"],
              wsp, w "a", opt (w "n"), wsp, w "email"] ]),             -- /\bwrite\s+(them|him|her)\s+an?\s+email/i
    (.dm,
      [ seqs [wb, w "dm", wsp, digits],                                -- /\bdm\s+\d+/i
        seqs [wb, w "direct", wsp, w "message"],                       -- /\bdirect\s+message/i
        seqs [wb, w "message", wsp, opt (seqs [w "on", wsp]),
              alts [w "twitter", w "x", w "linkedin", w "instagram"]], -- /\bmessage\s+(on\s+)?(twitter|x|linkedin|instagram)/i
        seqs [wb, w "reach", wsp, w "out", wsp, alts [w "on", w "via"],
              wsp, alts [w "twitter", w "x", w "linkedin"]],           -- /\breach\s+out\s+(on|via)\s+(twitter|x|linkedin)/i
        seqs [wb, w "send", wsp, w "a", wsp, w "dm"] ]),               -- /\bsend\s+a\s+dm/i
    (.whatsapp,
      [ seqs [wb, w "whatsapp"],                                       -- /\bwhatsapp/i
        seqs [wb, w "message", wsp, opt (seqs [w "on", wsp]),
              w "whatsapp"],                                           -- /\bmessage\s+(on\s+)?whatsapp/i
        seqs [wb, w "send", wsp, opt (seqs [w "a", wsp]),
              w "whatsapp"] ]),                                        -- /\bsend\s+(a\s+)?whatsapp/i
    (.generic,
      [ seqs [wb, w "reach", wsp, w "out", wsp, w "to"],               -- /\breach\s+out\s+to/i
        seqs [wb, w "contact", wsp, digits],                           -- /\bcontact\s+\d+/i
        seqs [wb, w "connect", wsp, w "with"],                         -- /\bconnect\s+with/i
        seqs [wb, w "outreach", wsp, w "to"],                          -- /\boutreach\s+to/i
        seqs [wb, w "get", wsp, w "in", wsp, w "touch", wsp, w "with"], -- /\bget\s+in\s+touch\s+with/i
        seqs [wb, w "approach"] ]) ]                                   -- /\bapproach/i

open Pat in
/-- `TARGET_TYPE_PATTERNS`, in `Object.entries` order (the `generic`
entry is the empty list). -/
def TARGET_TYPE_PATTERNS : List (TargetType × List Pat) :=
  [ (.restaurant_owner,
      [ seqs [wb, w "restaurant", wsp,
              alts [w "owner", w "manager", w "proprietor"]],          -- /\brestaurant\s+(owner|manager|proprietor)/i
        seqs [wb, w "restaurant", wsp, w "owner", optS],               -- /\brestaurant\s+owners?/i
        seqs [wb, w "food", wsp,
              alts [seqs [w "place", optS], w "business",
                    seqs [w "establishment", optS]]],                  -- /\bfood\s+(places?|business|establishments?)/i
        seqs [wb, w "eateries"],                                       -- /\beateries/i
        seqs [wb, w "dining", wsp,
              alts [seqs [w "place", optS], seqs [w "establishment", optS],
                    seqs [w "venue", optS]]],                          -- /\bdining\s+(places?|establishments?|venues?)/i
        seqs [wb, w "chef", wsp,
              alts [seqs [w "owner", optS], seqs [w "proprietor", optS]]] ]), -- /\bchef\s+(owners?|proprietors?)/i
    (.hotel_owner,
      [ seqs [wb, w "hotel", wsp,
              alts [w "owner", w "manager", w "proprietor"]],          -- /\bhotel\s+(owner|manager|proprietor)/i
        seqs [wb, w "boutique", wsp, w "hotel", optS],                 -- /\bboutique\s+hotels?/i
        seqs [wb, w "luxury", wsp, w "hotel", optS],                   -- /\bluxury\s+hotels?/i
        seqs [wb, w "hotel", optS, wsp, w "in"],                       -- /\bhotels?\s+in/i
        seqs [wb, w "accommodation", optS],                            -- /\baccommodations?/i
        seqs [wb, w "hospitality", wsp,
              alts [w "business", w "industry", seqs [w "owner", optS]]] ]), -- /\bhospitality\s+(business|industry|owners?)/i
    (.startup_founder,
      [ seqs [wb, w "founder", optS],                                  -- /\bfounder[s]?/i
        seqs [wb, w "co", opt (w "-"), w "founder", optS],             -- /\bco-?founder[s]?/i
        seqs [wb, w "startup", wsp, alts [w "founder", w "ceo", w "owner"]], -- /\bstartup\s+(founder|ceo|owner)/i
        seqs [wb, w "startup", wsp, w "founder", optS],                -- /\bstartup\s+founder[s]?/i
        seqs [wb, w "tech", wsp, w "founder", optS],                   -- /\btech\s+founder[s]?/i
        seqs [wb, w "entrepreneur", optS] ]),                          -- /\bentrepreneur[s]?/i
    (.creator,
      [ seqs [wb, w "creator", optS],                                  -- /\bcreator[s]?/i
        seqs [wb, w "influencer", optS],                               -- /\binfluencer[s]?/i
        seqs [wb, w "content", wsp, w "creator", optS],                -- /\bcontent\s+creator[s]?/i
        seqs [wb, alts [w "youtuber", w "streamer", w "blogger", w "vlogger"]], -- /\b(youtuber|streamer|blogger|vlogger)/i
        seqs [wb, w "social", wsp, w "media", wsp,
              alts [w "creator", w "influencer", w "star"]],           -- /\bsocial\s+media\s+(creator|influencer|star)/i
        seqs [wb, w "digital", wsp, w "creator", optS] ]),             -- /\bdigital\s+creator[s]?/i
    (.real_estate_broker,
      [ seqs [wb, w "real", wsp, w "estate", wsp,
              alts [w "agent", w "broker", w "owner", w "professional"]], -- /\breal\s+estate\s+(agent|broker|owner|professional)/i
        seqs [wb, w "realtor", optS],                                  -- /\brealtor[s]?/i
        seqs [wb, w "property", wsp, alts [w "agent", w "broker", w "dealer"]], -- /\bproperty\s+(agent|broker|dealer)/i
        seqs [wb, w "real", wsp, w "estate", wsp, w "professional", optS] ]), -- /\breal\s+estate\s+professional[s]?/i
    (.business_owner,
      [ seqs [wb, w "business", wsp, w "owner", optS],                 -- /\bbusiness\s+owner[s]?/i
        seqs [wb, w "company", wsp, w "owner", optS],                  -- /\bcompany\s+owner[s]?/i
        seqs [wb, w "entrepreneur", optS],                             -- /\bentrepreneur[s]?/i
        seqs [wb, w "small", wsp, w "business", wsp, w "owner", optS], -- /\bsmall\s+business\s+owner[s]?/i
        seqs [wb, w "local", wsp, w "business", wsp, w "owner", optS] ]), -- /\blocal\s+business\s+owner[s]?/i
    (.professional,
      [ seqs [wb, w "professional", optS],                             -- /\bprofessional[s]?/i
        seqs [wb, w "expert", optS],                                   -- /\bexpert[s]?/i
        seqs [wb, w "specialist", optS],                               -- /\bspecialist[s]?/i
        seqs [wb, w "consultant", optS] ]),                            -- /\bconsultant[s]?/i
    (.generic, []) ]

open Pat in
/-- `NICHE_PATTERNS`. -/
def NICHE_PATTERNS : List (Pat × String) :=
  [ (seqs [wb, w "fitness", wsp,
           alts [w "creator", w "influencer", w "coach", w "trainer", w "brand"]], "fitness"),
    (seqs [wb, w "wellness", wsp, alts [w "creator", w "influencer", w "brand"]], "wellness"),
    (seqs [wb, w "sustainable", wsp, alts [w "fashion", w "clothing", w "brand"]], "sustainable fashion"),
    (seqs [wb, w "fashion", wsp,
           alts [w "creator", w "influencer", w "brand", w "designer"]], "fashion"),
    (seqs [wb, w "travel", wsp, alts [w "creator", w "influencer", w "blogger"]], "travel"),
    (seqs [wb, w "food", wsp,
           alts [w "creator", w "influencer", w "blogger", w "chef"]], "food"),
    (seqs [wb, w "tech", wsp, alts [w "creator", w "influencer", w "reviewer"]], "tech"),
    (seqs [wb, w "lifestyle", wsp, alts [w "creator", w "influencer"]], "lifestyle"),
    (seqs [wb, w "beauty", wsp, alts [w "creator", w "influencer", w "brand"]], "beauty") ]

open Pat in
/-- `PURPOSE_PATTERNS`, in `Object.entries` order. -/
def PURPOSE_PATTERNS : List (OutreachPurpose × List Pat) :=
  [ (.partnership,
      [ seqs [wb, w "partnership", optS],                              -- /\bpartnership[s]?/i
        seqs [wb, w "collaborat", alts [w "e", w "ion", w "ing"]],     -- /\bcollaborat(e|ion|ing)/i
        seqs [wb, w "work", wsp, w "together"],                        -- /\bwork\s+together/i
        seqs [wb, w "team", wsp, w "up"],                              -- /\bteam\s+up/i
        seqs [wb, w "joint", wsp, w "venture"],                        -- /\bjoint\s+venture/i
        seqs [wb, w "co", opt (w "-"), w "brand"] ]),                  -- /\bco-?brand/i
    (.influencer_collaboration,
      [ seqs [wb, w "influencer", wsp,
              alts [w "collaboration", w "deal", w "partnership"]],    -- /\binfluencer\s+(collaboration|deal|partnership)/i
        seqs [wb, w "creator", wsp,
              alts [w "collaboration", w "deal", w "partnership"]],    -- /\bcreator\s+(collaboration|deal|partnership)/i
        seqs [wb, w "ambassador", wsp, w "program"],                   -- /\bambassador\s+program/i
        seqs [wb, w "brand", wsp, w "deal", optS],                     -- /\bbrand\s+deal[s]?/i
        seqs [wb, w "promotional", wsp, w "collaboration"] ]),         -- /\bpromotional\s+collaboration/i
    (.hiring,
      [ seqs [wb, w "hire", optS],                                     -- /\bhire[s]?/i
        seqs [wb, w "recruit", opt (alts [w "ing", w "ment"])],        -- /\brecruit(ing|ment)?/i
        seqs [wb, w "looking", wsp, w "for", wsp, opt (seqs [w "a", wsp]),
              alts [seqs [w "sales", w " ", w "rep"], w "employee",
                    seqs [w "team", wsp, w "member"]]],                -- /\blooking\s+for\s+(a\s+)?(sales rep|employee|team\s+member)/i
        seqs [wb, w "job", wsp, w "opening", optS],                    -- /\bjob\s+opening[s]?/i
        seqs [wb, w "talent", wsp, w "acquisition"] ]),                -- /\btalent\s+acquisition/i
    (.brand_deal,
      [ seqs [wb, w "brand", wsp, w "deal", optS],                     -- /\bbrand\s+deal[s]?/i
        seqs [wb, w "brand", wsp, w "collaboration", optS],            -- /\bbrand\s+collaboration[s]?/i
        seqs [wb, w "paid", wsp, w "partnership"],                     -- /\bpaid\s+partnership/i
        seqs [wb, w "sponsored", wsp, alts [w "content", w "post"]] ]), -- /\bsponsored\s+(content|post)/i
    (.referral,
      [ seqs [wb, w "referral", optS],                                 -- /\breferral[s]?/i
        seqs [wb, w "refer", wsp, alts [w "us", w "me", w "our"]],     -- /\brefer\s+(us|me|our)/i
        seqs [wb, w "recommend", opt (alts [w "ation", w "ing"])],     -- /\brecommend(ation|ing)?/i
        seqs [wb, w "client", wsp, w "referral", optS] ]),             -- /\bclient\s+referral[s]?/i
    (.sales,
      [ seqs [wb, w "sale", optS],                                     -- /\bsale[s]?/i
        seqs [wb, w "offer", optS],                                    -- /\boffer[s]?/i
        seqs [wb, w "product", wsp, w "demo"],                         -- /\bproduct\s+demo/i
        seqs [wb, w "pricing", wsp, w "plan", optS],                   -- /\bpricing\s+plan[s]?/i
        seqs [wb, w "buy", wsp, w "our"] ]),                           -- /\bbuy\s+our/i
    (.networking,
      [ seqs [wb, w "network", opt (w "ing")],                         -- /\bnetwork(ing)?/i
        seqs [wb, w "connect", opt (w "ion")],                         -- /\bconnect(ion)?/i
        seqs [wb, w "meet", wsp, opt (seqs [w "and", wsp]), w "greet"], -- /\bmeet\s+(and\s+)?greet/i
        seqs [wb, w "professional", wsp, w "connection"] ]),           -- /\bprofessional\s+connection/i
    (.general,
      [ seqs [wb, w "outreach"],                                       -- /\boutreach/i
        seqs [wb, w "reach", wsp, w "out"],                            -- /\breach\s+out/i
        seqs [wb, w "contact", wsp, alts [w "them", w "us"]],          -- /\bcontact\s+(them|us)/i
        seqs [wb, w "get", wsp, w "in", wsp, w "touch"] ]) ]           -- /\bget\s+in\s+touch/i

open Pat in
/-- `TONE_PATTERNS`, in `Object.entries` order. -/
def TONE_PATTERNS : List (MessageTone × List Pat) :=
  [ (.professional,
      [ seqs [wb, w "professional", opt (w "ly")],                     -- /\bprofessional(ly)?/i
        seqs [wb, w "business", opt (w "like")],                       -- /\bbusiness(like)?/i
        seqs [wb, w "formal", opt (w "ly")],                           -- /\bformal(ly)?/i
        seqs [wb, w "corporate"],                                      -- /\bcorporate/i
        seqs [wb, w "proper"] ]),                                      -- /\bproper/i
    (.casual,
      [ seqs [wb, w "casual", opt (w "ly")],                           -- /\bcasual(ly)?/i
        seqs [wb, w "friendly"],                                       -- /\bfriendly/i
        seqs [wb, w "relaxed"],                                        -- /\brelaxed/i
        seqs [wb, w "chill"],                                          -- /\bchill/i
        seqs [wb, w "chill", wsp, w "and", wsp, w "friendly"] ]),      -- /\bchill\s+and\s+friendly/i
    (.direct,
      [ seqs [wb, w "direct", opt (w "ly")],                           -- /\bdirect(ly)?/i
        seqs [wb, w "straightforward"],                                -- /\bstraightforward/i
        seqs [wb, w "to", wsp, w "the", wsp, w "point"],               -- /\bto\s+the\s+point/i
        seqs [wb, w "no", opt (w "-"), w "nonsense"] ]),               -- /\bno-?nonsense/i
    (.friendly,
      [ seqs [wb, w "friendly"],                                       -- /\bfriendly/i
        seqs [wb, w "warm"],                                           -- /\bwarm/i
        seqs [wb, w "approachable"] ]) ]                               -- /\bapproachable/i

-- ============================================
-- intentParser.ts: extraction helpers
-- ============================================

/-- The first maximal digit run of the input (JS `input.match(/(\d+)/)`
followed by `parseInt(match[1], 10)`), if any digit occurs. -/
def firstNumber : List Char → Option Nat
  | [] => none
  | c :: cs =>
    if isJsDigit c then
      some (((c :: cs).takeWhile isJsDigit).foldl
        (fun acc d => acc * 10 + (d.toNat - '0'.toNat)) 0)
    else
      firstNumber cs

/-- `numberWords`, in insertion order. -/
def numberWords : List (String × Nat) :=
  [ ("one", 1), ("two", 2), ("three", 3), ("four", 4), ("five", 5),
    ("six", 6), ("seven", 7), ("eight", 8), ("nine", 9), ("ten", 10),
    ("fifteen", 15), ("twenty", 20), ("twenty-five", 25), ("thirty", 30) ]

/-- `extractCount` (the input is the already-lowercased request). -/
def extractCount (input : List Char) : Nat :=
  match firstNumber input with
  | some n => n
  | none =>
    match numberWords.find? (fun (p : String × Nat) =>
        Pat.test (Pat.seqs [Pat.wb, Pat.w p.1, Pat.wb]) input) with
    | some p => p.2
    | none => 10

/-- Generic "first table entry one of whose patterns matches" scan used
by `detectChannel` / `detectTargetType` / `detectPurpose` /
`detectTone`. -/
def findByPatterns {α : Type} (table : List (α × List Pat)) (input : List Char) : Option α :=
  (table.find? (fun e => e.2.any (fun p => Pat.test p input))).map Prod.fst

/-- `detectChannel`. -/
def detectChannel (input : List Char) : OutreachChannel :=
  (findByPatterns CHANNEL_PATTERNS input).getD .generic

open Pat in
/-- `extractTargetFromContext`: its loop takes the first of seven
patterns that matches and runs an `includes` chain over the matched
text; for each pattern the matched text always satisfies exactly the
branch recorded here (e.g. a match of `/restaurant[s]?/` always contains
`"restaurant"`), so the chain collapses to a fixed result per pattern. -/
def extractTargetFromContext (input : List Char) : Option TargetType :=
  (([ (seqs [opt (seqs [w "boutique", wsp]), w "hotel", optS], TargetType.hotel_owner),
      (seqs [w "restaurant", optS], .restaurant_owner),
      (seqs [w "startup", optS], .startup_founder),
      (seqs [w "founder", optS], .startup_founder),
      (seqs [w "creator", optS], .creator),
      (seqs [w "influencer", optS], .creator),
      (seqs [w "real", wsp, w "estate", wsp, alts [w "agent", w "broker"], optS],
        .real_estate_broker) ] : List (Pat × TargetType)).find?
    (fun e => Pat.test e.1 input)).map Prod.snd

/-- `detectTargetType`. -/
def detectTargetType (input : List Char) : TargetType :=
  match findByPatterns TARGET_TYPE_PATTERNS input with
  | some t => t
  | none =>
    match extractTargetFromContext input with
    | some t => t
    | none => .generic

/-- `detectNiche`. -/
def detectNiche (input : List Char) : Option String :=
  (NICHE_PATTERNS.find? (fun e => Pat.test e.1 input)).map Prod.snd

/-- `US_CITIES`, in insertion order. -/
def US_CITIES : List (String × String) :=
  [ ("nyc", "New York, NY"), ("new york", "New York, NY"), ("ny", "New York, NY"),
    ("los angeles", "Los Angeles, CA"), ("la", "Los Angeles, CA"),
    ("sf", "San Francisco, CA"), ("san francisco", "San Francisco, CA"),
    ("chicago", "Chicago, IL"), ("miami", "Miami, FL"),
    ("dc", "Washington, DC"), ("washington", "Washington, DC"),
    ("boston", "Boston, MA"), ("seattle", "Seattle, WA"), ("austin", "Austin, TX"),
    ("denver", "Denver, CO"), ("atlanta", "Atlanta, GA"), ("charlotte", "Charlotte, NC"),
    ("dallas", "Dallas, TX"), ("houston", "Houston, TX"),
    ("philadelphia", "Philadelphia, PA"), ("phoenix", "Phoenix, AZ"),
    ("san diego", "San Diego, CA"), ("san jose", "San Jose, CA") ]

/-- `detectLocation` (plain `String.includes` scans). -/
def detectLocation (input : List Char) : Option String :=
  (US_CITIES.find? (fun e => containsSub e.1.data input)).map Prod.snd

open Pat in
/-- `purposePhrases` of `extractPurposeDescription`. -/
def purposePhrases : OutreachPurpose → List Pat
  | .partnership =>
      [ seqs [w "about", wsp, opt (seqs [w "a", wsp]), w "partnership"],
        seqs [w "for", wsp, opt (seqs [w "a", wsp]), w "partnership"],
        seqs [w "regarding", wsp, opt (seqs [w "a", wsp]), w "partnership"] ]
  | .influencer_collaboration =>
      [ seqs [w "for", wsp, w "influencer", wsp, w "collaboration"],
        seqs [w "about", wsp, w "influencer"],
        seqs [w "for", wsp, w "creator", wsp, w "collaboration"] ]
  | .hiring =>
      [ seqs [w "hiring", wsp, wordChars],
        seqs [w "looking", wsp, w "for", wsp, wordChars],
        seqs [w "about", wsp, opt (seqs [w "a", wsp]), w "job"] ]
  | .brand_deal =>
      [ seqs [w "for", wsp, w "brand", wsp, w "deal"],
        seqs [w "about", wsp, opt (seqs [w "a", wsp]), w "brand", wsp, w "deal"],
        seqs [w "for", wsp, w "brand", wsp, w "collaboration"] ]
  | .referral =>
      [ seqs [w "about", wsp, w "referral"],
        seqs [w "for", wsp, w "referral"],
        seqs [w "for", wsp, w "referrals"] ]
  | _ => []

/-- `purpose` keys as strings (used for the default description
`` `${purpose} outreach` ``). -/
def purposeKey : OutreachPurpose → String
  | .partnership => "partnership"
  | .influencer_collaboration => "influencer_collaboration"
  | .hiring => "hiring"
  | .brand_deal => "brand_deal"
  | .referral => "referral"
  | .sales => "sales"
  | .networking => "networking"
  | .general => "general"

/-- The anchored `match[0].replace(/^(about|for)\s+/i, "")` step of
`extractPurposeDescription`. -/
def stripAboutFor (m : List Char) : List Char :=
  if "about".data.isPrefixOf m ∧ (m.drop 5).head?.elim false isJsSpace then
    (m.drop 5).dropWhile isJsSpace
  else if "for".data.isPrefixOf m ∧ (m.drop 3).head?.elim false isJsSpace then
    (m.drop 3).dropWhile isJsSpace
  else
    m

/-- `extractPurposeDescription`. -/
def extractPurposeDescription (input : List Char) (purpose : OutreachPurpose) : String :=
  match (purposePhrases purpose).findSome? (fun p => Pat.firstMatch p input) with
  | some m => ⟨jsTrim (stripAboutFor m)⟩
  | none => purposeKey purpose ++ " outreach"

/-- `detectPurpose`. -/
def detectPurpose (input : List Char) : OutreachPurpose × String :=
  match findByPatterns PURPOSE_PATTERNS input with
  | some purpose => (purpose, extractPurposeDescription input purpose)
  | none => (.general, "general outreach")

/-- `detectTone`. -/
def detectTone (input : List Char) : MessageTone :=
  match findByPatterns TONE_PATTERNS input with
  | some t => t
  | none =>
    if containsSub "dm".data input || containsSub "direct message".data input then
      .casual
    else
      .professional

/-- `calculateConfidence`. -/
def calculateConfidence (channel : OutreachChannel) (targetType : TargetType)
    (purpose : OutreachPurpose) (count : Nat) (hasNiche hasLocation : Bool) : Rat :=
  let confidence : Rat := 1/2
  let confidence := if channel ≠ .generic then confidence + 15/100 else confidence
  let confidence := if targetType ≠ .generic then confidence + 15/100 else confidence
  let confidence := if purpose ≠ .general then confidence + 1/10 else confidence
  let confidence := if hasNiche then confidence + 5/100 else confidence
  let confidence := if hasLocation then confidence + 5/100 else confidence
  let confidence := if 1 ≤ count ∧ count ≤ 50 then confidence + 5/100 else confidence
  jsMin confidence 1

/-- `generateSuggestions`. -/
def generateSuggestions (channel : OutreachChannel) (purpose : OutreachPurpose)
    (niche location : Option String) : List String :=
  (if channel = .generic then
    ["Consider specifying a channel (Email, DM, WhatsApp)"] else []) ++
  (if !jsTruthy location && !jsTruthy niche then
    ["Adding a location or niche will help find more relevant targets"] else []) ++
  (if purpose = .general then
    ["Being more specific about the purpose (partnership, hiring, etc.) will improve message relevance"]
   else [])

-- ============================================
-- intentParser.ts: parseIntent and validateIntent
-- ============================================

/-- `parseIntent` (note: the source assigns the free-text
`purposeDescription` to *both* the `purpose` and `purposeDescription`
fields of the returned record). -/
def parseIntent (input : String) : ParsedIntent :=
  let lowerInput := jsToLower input
  let count := extractCount lowerInput
  let channel := detectChannel lowerInput
  let targetType := detectTargetType lowerInput
  let niche := detectNiche lowerInput
  let location := detectLocation lowerInput
  let pd := detectPurpose lowerInput
  let tone := detectTone lowerInput
  let confidence := calculateConfidence channel targetType pd.1 count niche.isSome location.isSome
  let suggestions := generateSuggestions channel pd.1 niche location
  { rawInput := input
    channel := channel
    targetType := targetType
    targetNiche := niche
    location := location
    purpose := pd.2
    purposeDescription := pd.2
    count := count
    tone := tone
    confidence := confidence
    suggestions := suggestions }

structure ValidationResult where
  valid : Bool
  errors : List String
  deriving DecidableEq, Repr

/-- `validateIntent` (the exported validator of `intentParser.ts`). -/
def validateIntent (parsed : ParsedIntent) : ValidationResult :=
  let errors :=
    (if parsed.count < 1 ∨ parsed.count > 100 then
      ["Target count should be between 1 and 100"] else []) ++
    (if parsed.confidence < 1/2 then
      ["Could not confidently parse your intent. Please be more specific."] else []) ++
    (if parsed.targetType = .generic ∧ !jsTruthy parsed.targetNiche then
      ["Consider specifying what type of targets you want to reach"] else [])
  { valid := errors.length = 0, errors := errors }

-- ============================================
-- channelSelector.ts
-- ============================================

structure ChannelRecommendation where
  channel : OutreachChannel
  confidence : Rat
  reason : String
  -- TS optional field, absent (`undefined`) embedded as `[]`
  alternatives : List OutreachChannel := []
  deriving DecidableEq, Repr

/-- `isCreatorTarget`. -/
def isCreatorTarget (targetType : TargetType) : Bool :=
  targetType = .creator

/-- `isB2BTarget`. -/
def isB2BTarget (targetType : TargetType) : Bool :=
  targetType ∈ [TargetType.restaurant_owner, .hotel_owner, .real_estate_broker,
    .business_owner, .startup_founder]

/-- `isHiringPurpose`. -/
def isHiringPurpose (purpose : OutreachPurpose) : Bool :=
  purpose = .hiring

/-- `isPartnershipPurpose`. -/
def isPartnershipPurpose (purpose : OutreachPurpose) : Bool :=
  purpose ∈ [OutreachPurpose.partnership, .influencer_collaboration, .brand_deal]

/-- `isWhatsAppAppropriate`. -/
def isWhatsAppAppropriate (intent : OutreachIntent) : Bool :=
  (match intent.location with
   | some l => containsSub "miami".data (jsToLower l)
   | none => false) ||
  (intent.targetType = .restaurant_owner && intent.purpose = .partnership)

/-- `analyzeChannelFit`: the sequence of `recommendations.push(...)`
calls, in order, with the final "default fallback" push when nothing
fired. -/
def analyzeChannelFit (intent : OutreachIntent) : List ChannelRecommendation :=
  let recommendations :=
    (if isCreatorTarget intent.targetType then
      [ { channel := .dm, confidence := 85/100,
          reason := "Creators and influencers typically respond better to direct messages on social platforms" },
        { channel := .email, confidence := 6/10,
          reason := "Email can work but may have lower response rates for creators" } ]
     else []) ++
    (if isB2BTarget intent.targetType then
      [ { channel := .email, confidence := 9/10,
          reason := "Professional channels like email are standard for B2B outreach" } ] ++
      (if intent.targetType = .startup_founder ∨ intent.targetType = .professional then
        [ { channel := .dm, confidence := 7/10,
            reason := "LinkedIn DMs can be effective for startup founders and professionals" } ]
       else [])
     else []) ++
    (if isHiringPurpose intent.purpose then
      [ { channel := .email, confidence := 95/100,
          reason := "Hiring inquiries are most professional via email" },
        { channel := .dm, confidence := 1/2,
          reason := "Direct messages may seem less professional for hiring" } ]
     else []) ++
    (if isPartnershipPurpose intent.purpose then
      (if isCreatorTarget intent.targetType then
        [ { channel := .dm, confidence := 8/10,
            reason := "Creators often prefer DMs for collaboration inquiries" } ]
       else
        [ { channel := .email, confidence := 85/100,
            reason := "Partnership inquiries to businesses are best via email" } ])
     else []) ++
    (if jsTruthy intent.location then
      [ { channel := .email, confidence := 8/10,
          reason := "Email is reliable for location-based business outreach" } ]
     else []) ++
    (if isWhatsAppAppropriate intent then
      [ { channel := .whatsapp, confidence := 7/10,
          reason := "WhatsApp is popular in certain regions and for certain business types" } ]
     else [])
  if recommendations.length = 0 then
    [ { channel := .email, confidence := 7/10,
        reason := "Email is the default and most reliable channel for outreach" } ]
  else
    recommendations

/-- Descending-confidence comparison used by
`recommendations.sort((a, b) => b.confidence - a.confidence)`. -/
def confDesc (a b : ChannelRecommendation) : Prop :=
  b.confidence ≤ a.confidence

instance : DecidableRel confDesc := fun a b =>
  inferInstanceAs (Decidable (b.confidence ≤ a.confidence))

/-- String names of channels (TS template literals over the union
type). -/
def channelKey : OutreachChannel → String
  | .email => "email"
  | .dm => "dm"
  | .whatsapp => "whatsapp"
  | .generic => "generic"

/-- `selectChannel` of `channelSelector.ts`. JS `Array.sort` is stable,
as is `List.insertionSort`, so ties keep the push order. The source
reads `sorted[0]`; `analyzeChannelFit` always returns at least one
candidate (`analyzeChannelFit_ne_nil` below), so the `[]` branch here is
dead and its value is irrelevant. -/
def selectChannel (intent : OutreachIntent) : ChannelRecommendation :=
  if intent.channel ≠ .generic then
    { channel := intent.channel, confidence := 1,
      reason := "Channel explicitly specified: " ++ channelKey intent.channel }
  else
    let sorted := (analyzeChannelFit intent).insertionSort confDesc
    match sorted with
    | [] =>
      { channel := .email, confidence := 7/10,
        reason := "Email is the default and most reliable channel for outreach" }
    | top :: _ =>
      let alts :=
        (sorted.filter (fun r => r.channel ≠ top.channel ∧ r.confidence > 3/10)).map
          (fun r => r.channel)
      { top with alternatives := alts }

-- ============================================
-- channelSelector.ts: getChannelConfig (the slice the generator reads)
-- ============================================

structure ChannelFeatures where
  hasSubject : Bool
  supportsHtml : Bool
  hasPreview : Bool
  trackingSupported : Bool
  deriving DecidableEq, Repr

/-- `ChannelConfig` (the `bestPractices` string lists are omitted: no
embedded function reads them). -/
structure ChannelConfig where
  channel : OutreachChannel
  displayName : String
  icon : String
  maxLength : Nat
  features : ChannelFeatures
  deriving DecidableEq, Repr

/-- `getChannelConfig`. -/
def getChannelConfig : OutreachChannel → ChannelConfig
  | .email =>
    { channel := .email, displayName := "Email", icon := "mail", maxLength := 10000,
      features := { hasSubject := true, supportsHtml := true,
                    hasPreview := true, trackingSupported := true } }
  | .dm =>
    { channel := .dm, displayName := "Direct Message", icon := "message", maxLength := 500,
      features := { hasSubject := false, supportsHtml := false,
                    hasPreview := true, trackingSupported := false } }
  | .whatsapp =>
    { channel := .whatsapp, displayName := "WhatsApp", icon := "phone", maxLength := 4096,
      features := { hasSubject := false, supportsHtml := false,
                    hasPreview := true, trackingSupported := true } }
  | .generic =>
    { channel := .generic, displayName := "Generic", icon := "send", maxLength := 5000,
      features := { hasSubject := false, supportsHtml := true,
                    hasPreview := true, trackingSupported := true } }

-- ============================================
-- Message generator (second compilation unit of followUpAutomation.ts)
-- ============================================

/-- The inline `companyIntelligence` parameter type of the generator. -/
structure CompanyIntelligence where
  recentNews : Option (List String) := none
  products : Option (List String) := none
  mission : Option String := none
  socialProofFollowers : Option Nat := none
  socialProofEngagement : Option Rat := none
  deriving DecidableEq, Repr

/-- The inline `customContext` parameter type of the generator. -/
structure CustomContext where
  senderName : Option String := none
  senderCompany : Option String := none
  senderWebsite : Option String := none
  customHook : Option String := none
  deriving DecidableEq, Repr

/-- JS template-literal coercion of an optional string (`undefined`
renders as the text "undefined"). -/
def jsStr (o : Option String) : String := o.getD "undefined"

/-- JS `xs?.[0]` on an optional array. -/
def jsHead (o : Option (List String)) : Option String := o.bind List.head?

/-- JS truthiness of an optional number (`undefined` and `0` are
falsy). -/
def jsTruthyNat : Option Nat → Bool
  | none => false
  | some n => !(n = 0)

/-- `baseTemplates` of `getTemplatesForChannel` (the `channel` field is
filled in by the map below). -/
def baseTemplates : List (OutreachChannel → MessageTemplate) :=
  [ fun channel =>
    { id := "partnership_b2b", channel := channel, targetType := .business_owner,
      purpose := .partnership, tone := .professional,
      subject := some "Partnership Opportunity for \x7b\x7bcompany\x7d\x7d",
      template := "Hi \x7b\x7bname\x7d\x7d,\n\nI\x27ve been following \x7b\x7bcompany\x7d\x7d and I\x27m impressed by \x7b\x7bpersonalization_hook\x7d\x7d.\n\nI\x27m \x7b\x7bsender_name\x7d\x7d from \x7b\x7bsender_company\x7d\x7d, and we\x27re interested in exploring a partnership that could benefit both of our audiences.\n\n\x7b\x7bvalue_proposition\x7d\x7d\n\nWould you be open to a quick call this week to discuss how we might work together?\n\nBest regards,\n\x7b\x7bsender_name\x7d\x7d\n\x7b\x7bsender_title\x7d\x7d\n\x7b\x7bsender_company\x7d\x7d\n\x7b\x7bsender_website\x7d\x7d",
      vars := ["name", "company", "personalization_hook", "sender_name", "sender_company",
               "value_proposition", "sender_title", "sender_website"] },
    fun channel =>
    { id := "partnership_creator", channel := channel, targetType := .creator,
      purpose := .partnership, tone := .casual,
      template := "Hey \x7b\x7bname\x7d\x7d! \n\nI\x27ve been loving your content (\x7b\x7brecent_post_reference\x7d\x7d) and think there\x27s a great opportunity for us to collaborate.\n\n\x7b\x7bvalue_proposition\x7d\x7d\n\nWould love to chat more if you\x27re interested! \n\n\x7b\x7bsender_name\x7d\x7d\n\x7b\x7bsender_company\x7d\x7d",
      vars := ["name", "recent_post_reference", "value_proposition", "sender_name",
               "sender_company"] },
    fun channel =>
    { id := "influencer_collab", channel := channel, targetType := .creator,
      purpose := .influencer_collaboration, tone := .friendly,
      template := "Hi \x7b\x7bname\x7d\x7d!\n\nI\x27ve been following your \x7b\x7bniche\x7d\x7d content and absolutely love your style (\x7b\x7bspecific_content_reference\x7d\x7d).\n\nI\x27m \x7b\x7bsender_name\x7d\x7d from \x7b\x7bsender_company\x7d\x7d, and we\x27re launching \x7b\x7bcampaign_description\x7d\x7d and think you\x27d be a perfect fit.\n\n\x7b\x7bcollaboration_details\x7d\x7d\n\nLet me know if you\x27d be open to exploring this opportunity!\n\nBest,\n\x7b\x7bsender_name\x7d\x7d",
      vars := ["name", "niche", "specific_content_reference", "sender_name", "sender_company",
               "campaign_description", "collaboration_details"] },
    fun channel =>
    { id := "hiring_founder", channel := channel, targetType := .startup_founder,
      purpose := .hiring, tone := .professional,
      subject := some "Hiring for \x7b\x7brole\x7d\x7d at \x7b\x7bsender_company\x7d\x7d",
      template := "Hi \x7b\x7bname\x7d\x7d,\n\nI noticed \x7b\x7bcompany\x7d\x7d is growing rapidly, and I wanted to reach out about an opportunity that might interest you or someone in your network.\n\n\x7b\x7bsender_company\x7d\x7d is looking for \x7b\x7brole\x7d\x7d to join our team. \x7b\x7bjob_description\x7d\x7d\n\n\x7b\x7bwhy_interesting\x7d\x7d\n\nAre you aware of anyone in your network who might be a great fit? Or would you be open to a brief conversation?\n\nBest,\n\x7b\x7bsender_name\x7d\x7d\n\x7b\x7bsender_title\x7d\x7d\n\x7b\x7bsender_company\x7d\x7d",
      vars := ["name", "company", "role", "job_description", "why_interesting", "sender_name",
               "sender_title", "sender_company"] },
    fun channel =>
    { id := "brand_deal", channel := channel, targetType := .creator,
      purpose := .brand_deal, tone := .casual,
      template := "Hi \x7b\x7bname\x7d\x7d! \n\nLove what you\x27re doing in the \x7b\x7bniche\x7d\x7d space! Your \x7b\x7bspecific_content\x7d\x7d was \x7b\x7bcompliment\x7d\x7d.\n\nI\x27m \x7b\x7bsender_name\x7d\x7d from \x7b\x7bsender_company\x7d\x7d, and we\x27d love to work with you on \x7b\x7bdeal_description\x7d\x7d.\n\n\x7b\x7bdeal_details\x7d\x7d\n\nLet me know if you\x27re interested and we can discuss further!\n\nCheers,\n\x7b\x7bsender_name\x7d\x7d",
      vars := ["name", "niche", "specific_content", "compliment", "sender_name",
               "sender_company", "deal_description", "deal_details"] },
    fun channel =>
    { id := "referral_realtor", channel := channel, targetType := .real_estate_broker,
      purpose := .referral, tone := .professional,
      subject := some "Referral Partnership Opportunity",
      template := "Hi \x7b\x7bname\x7d\x7d,\n\nI work with clients who are looking to \x7b\x7bservice_type\x7d\x7d in \x7b\x7blocation\x7d\x7d, and I believe we could refer business to each other.\n\n\x7b\x7bsender_company\x7d\x7d specializes in \x7b\x7bspecialization\x7d\x7d, and I\x27ve helped \x7b\x7bsuccess_metric\x7d\x7d clients achieve their goals.\n\nWould you be open to a brief call to discuss how we can support each other\x27s clients?\n\nBest regards,\n\x7b\x7bsender_name\x7d\x7d\n\x7b\x7bsender_company\x7d\x7d\n\x7b\x7bsender_phone\x7d\x7d",
      vars := ["name", "service_type", "location", "sender_company", "specialization",
               "success_metric", "sender_name", "sender_phone"] },
    fun channel =>
    { id := "generic_professional", channel := channel, targetType := .generic,
      purpose := .general, tone := .professional,
      subject := some "Reaching out from \x7b\x7bsender_company\x7d\x7d",
      template := "Hi \x7b\x7bname\x7d\x7d,\n\nI wanted to reach out regarding \x7b\x7bpurpose_description\x7d\x7d.\n\n\x7b\x7bsender_company\x7d\x7d \x7b\x7bcompany_description\x7d\x7d\n\n\x7b\x7bspecific_value\x7d\x7d\n\nWould you be available for a brief call this week?\n\nBest,\n\x7b\x7bsender_name\x7d\x7d\n\x7b\x7bsender_company\x7d\x7d\n\x7b\x7bsender_website\x7d\x7d",
      vars := ["name", "purpose_description", "sender_company", "company_description",
               "specific_value", "sender_name", "sender_website"] },
    fun channel =>
    { id := "generic_casual", channel := channel, targetType := .generic,
      purpose := .general, tone := .casual,
      template := "Hey \x7b\x7bname\x7d\x7d!\n\nQuick intro â€” I\x27m \x7b\x7bsender_name\x7d\x7d from \x7b\x7bsender_company\x7d\x7d.\n\n\x7b\x7bcontext_hook\x7d\x7d\n\n\x7b\x7bvalue_prop\x7d\x7d\n\nInterested in chatting? \n\n\x7b\x7bsender_name\x7d\x7d",
      vars := ["name", "sender_name", "sender_company", "context_hook", "value_prop"] } ]

/-- `getTemplatesForChannel`. -/
def getTemplatesForChannel (channel : OutreachChannel) : List MessageTemplate :=
  baseTemplates.map (fun mk => mk channel)

/-- Dead-branch placeholder for `selectTemplate` (`templates` is
statically non-empty, so `templates[0]` always exists). -/
def emptyTemplate : MessageTemplate :=
  { id := "", channel := .generic, targetType := .generic, purpose := .general,
    tone := .professional, template := "", vars := [] }

/-- `selectTemplate`. -/
def selectTemplate (intent : OutreachIntent) : MessageTemplate :=
  let templates := getTemplatesForChannel intent.channel
  let matching := templates.filter
    (fun t => t.targetType = intent.targetType ∧ t.purpose = intent.purpose)
  match matching with
  | m :: _ => m
  | [] =>
    match templates.find? (fun t => t.targetType = .generic ∧ t.purpose = .general) with
    | some g => g
    | none => templates.headD emptyTemplate  -- JS `generic || templates[0]`

/-- `getValueProposition`. -/
def getValueProposition (intent : OutreachIntent) : String :=
  match intent.purpose with
  | .partnership => "We help brands build valuable partnerships that drive mutual growth."
  | .influencer_collaboration => "We create authentic creator partnerships that resonate with audiences."
  | .hiring => "Join a fast-growing team with equity, great culture, and meaningful work."
  | .brand_deal => "We offer competitive rates with full creative freedom for our partners."
  | .referral => "We refer clients to trusted professionals and expect reciprocation."
  | .sales => "Our solution has helped similar businesses achieve significant results."
  | .networking => "I\x27d love to learn more about what you\x27re working on."
  | .general => "I think there could be a mutually beneficial opportunity here."

/-- `renderTemplate`: the exact left-to-right sequence of
`body.replace(/\x7b\x7b...\x7d\x7d/g, value)` calls of the source, followed by
`body.trim()`. -/
def renderTemplate (template : MessageTemplate) (intent : OutreachIntent)
    (target : Target) (companyIntelligence : Option CompanyIntelligence)
    (customContext : Option CustomContext) : String :=
  let body := template.template
  -- Replace all variables
  let body := replaceAll body "\x7b\x7bname\x7d\x7d" (jsOr (some target.name) "there")
  let body := replaceAll body "\x7b\x7bcompany\x7d\x7d" (jsOr target.company "")
  let body := replaceAll body "\x7b\x7btitle\x7d\x7d" (jsOr target.title "")
  let body := replaceAll body "\x7b\x7blocation\x7d\x7d"
    (jsOr target.location (jsOr intent.location ""))
  let body := replaceAll body "\x7b\x7bniche\x7d\x7d"
    (jsOr target.niche (jsOr intent.targetNiche ""))
  -- Sender info
  let body := replaceAll body "\x7b\x7bsender_name\x7d\x7d"
    (jsOr (customContext.bind (·.senderName)) "[Your Name]")
  let body := replaceAll body "\x7b\x7bsender_company\x7d\x7d"
    (jsOr (customContext.bind (·.senderCompany)) "[Your Company]")
  let body := replaceAll body "\x7b\x7bsender_website\x7d\x7d"
    (jsOr (customContext.bind (·.senderWebsite)) "")
  let body := replaceAll body "\x7b\x7bsender_title\x7d\x7d"
    (if jsTruthy (customContext.bind (·.senderName)) then "Founder/CEO" else "[Your Title]")
  let body := replaceAll body "\x7b\x7bsender_phone\x7d\x7d"
    (if jsTruthy (customContext.bind (·.senderName)) then "[Your Phone]" else "")
  -- Purpose-specific replacements
  let body := replaceAll body "\x7b\x7bpurpose_description\x7d\x7d"
    (jsOr intent.purposeDescription "connecting")
  -- Company intelligence replacements
  let body :=
    match companyIntelligence with
    | some intel =>
      let body := replaceAll body "\x7b\x7bpersonalization_hook\x7d\x7d"
        (jsOr intel.mission ("what you\x27ve built with " ++ jsStr target.company))
      let body := replaceAll body "\x7b\x7brecent_post_reference\x7d\x7d"
        (jsOr (jsHead intel.recentNews) "your recent content")
      let body := replaceAll body "\x7b\x7bspecific_content_reference\x7d\x7d"
        (jsOr (jsHead intel.recentNews) "your style")
      let body := replaceAll body "\x7b\x7bcompliment\x7d\x7d"
        (if jsTruthyNat intel.socialProofFollowers then
          "really resonated with your " ++
            (if 10000 < intel.socialProofFollowers.getD 0 then "large" else "growing") ++
            " audience"
         else "really stood out")
      body
    | none =>
      let body := replaceAll body "\x7b\x7bpersonalization_hook\x7d\x7d" "what you\x27re building"
      let body := replaceAll body "\x7b\x7brecent_post_reference\x7d\x7d" "your content"
      let body := replaceAll body "\x7b\x7bspecific_content_reference\x7d\x7d" "your approach"
      let body := replaceAll body "\x7b\x7bcompliment\x7d\x7d" "caught my attention"
      body
  -- Context-specific replacements
  let body := replaceAll body "\x7b\x7bcontext_hook\x7d\x7d"
    (jsOr (customContext.bind (·.customHook)) "Coming across your profile")
  let body := replaceAll body "\x7b\x7bvalue_prop\x7d\x7d" (getValueProposition intent)
  let body := replaceAll body "\x7b\x7bvalue_proposition\x7d\x7d" (getValueProposition intent)
  -- Purpose-specific replacements
  let body :=
    if intent.purpose = .hiring then
      let body := replaceAll body "\x7b\x7brole\x7d\x7d" "sales representatives"
      let body := replaceAll body "\x7b\x7bjob_description\x7d\x7d"
        "to help us scale our sales operations"
      replaceAll body "\x7b\x7bwhy_interesting\x7d\x7d"
        "We\x27ve grown 3x in the last year and are looking for talented individuals to join our mission"
    else body
  let body :=
    if intent.purpose = .influencer_collaboration then
      let body := replaceAll body "\x7b\x7bcampaign_description\x7d\x7d" "an exciting new campaign"
      replaceAll body "\x7b\x7bcollaboration_details\x7d\x7d"
        "We\x27d love to discuss rates and creative freedom"
    else body
  let body :=
    if intent.purpose = .brand_deal then
      let body := replaceAll body "\x7b\x7bdeal_description\x7d\x7d" "a paid partnership opportunity"
      replaceAll body "\x7b\x7bdeal_details\x7d\x7d" "Competitive rates + creative control"
    else body
  let body :=
    if intent.purpose = .referral then
      let body := replaceAll body "\x7b\x7bservice_type\x7d\x7d" "buy or sell properties"
      let body := replaceAll body "\x7b\x7bspecialization\x7d\x7d" "luxury residential real estate"
      replaceAll body "\x7b\x7bsuccess_metric\x7d\x7d" "100+"
    else body
  -- Company description
  let body := replaceAll body "\x7b\x7bcompany_description\x7d\x7d"
    (if jsTruthy (customContext.bind (·.senderCompany)) then
      "helps businesses streamline their outreach and partnership development"
     else "working on something exciting")
  let body := replaceAll body "\x7b\x7bspecific_value\x7d\x7d"
    ("We help companies like " ++ jsOr target.company "yours" ++ " reach their partnership goals")
  ⟨jsTrim body.data⟩

/-- `generateSubjectLine`. -/
def generateSubjectLine (intent : OutreachIntent) (target : Target)
    (customContext : Option CustomContext) : String :=
  match intent.purpose with
  | .partnership => "Partnership Opportunity for " ++ jsOr target.company "Your Company"
  | .influencer_collaboration => "Collaboration Opportunity for " ++ target.name
  | .hiring =>
    jsOr intent.purposeDescription "Job Opportunity" ++ " at " ++
      jsOr (customContext.bind (·.senderCompany)) "Our Company"
  | .brand_deal => "Paid Partnership with " ++ jsOr (customContext.bind (·.senderCompany)) "Us"
  | .referral => "Referral Partnership - " ++ jsOr target.location "Your Area"
  | .sales => "Quick question for " ++ jsOr target.company "you"
  | .networking => "Introduction from " ++ jsOr (customContext.bind (·.senderName)) "someone"
  | .general =>
    "Reaching out from " ++
      jsOr (customContext.bind (·.senderCompany))
        (jsOr (customContext.bind (·.senderName)) "...")

/-- `formatNumber` (JS `toFixed(1)` embedded as round-half-up to one
decimal place). -/
def formatNumber (num : Nat) : String :=
  if 1000000 ≤ num then
    let tenths := (num * 10 + 500000) / 1000000
    toString (tenths / 10) ++ "." ++ toString (tenths % 10) ++ "M"
  else if 1000 ≤ num then
    let tenths := (num * 10 + 500) / 1000
    toString (tenths / 10) ++ "." ++ toString (tenths % 10) ++ "K"
  else
    toString num

/-- `analyzePersonalization`. -/
def analyzePersonalization (intent : OutreachIntent) (target : Target)
    (companyIntelligence : Option CompanyIntelligence)
    (customContext : Option CustomContext) : PersonalizationPoints :=
  let base : PersonalizationPoints :=
    { companyReference := jsTruthy target.company
      recentNewsReference := jsTruthyNat
        ((companyIntelligence.bind (·.recentNews)).map List.length)
      mutualConnection := false
      nicheSpecific := jsTruthy target.niche || jsTruthy intent.targetNiche
      locationSpecific := jsTruthy target.location || jsTruthy intent.location
      customHooks := [] }
  let hooks :=
    (match companyIntelligence.bind (·.mission) with
     | some mission =>
       if mission ≠ "" then
         ["Referenced company mission: \"" ++ jsTake mission 100 ++ "...\""]
       else []
     | none => []) ++
    (if jsTruthyNat ((companyIntelligence.bind (·.recentNews)).map List.length) then
      match jsHead (companyIntelligence.bind (·.recentNews)) with
      | some news0 => ["Referenced recent news: " ++ jsTake news0 80 ++ "..."]
      | none => []
     else []) ++
    (match companyIntelligence.bind (·.socialProofFollowers) with
     | some followers =>
       if followers ≠ 0 then
         ["Acknowledged audience size (" ++ formatNumber followers ++ " followers)"]
       else []
     | none => []) ++
    (match customContext.bind (·.customHook) with
     | some hook => if hook ≠ "" then ["Custom hook: " ++ hook] else []
     | none => [])
  { base with customHooks := hooks }

/-- `calculateQualityScore`. -/
def calculateQualityScore (personalization : PersonalizationPoints)
    (intent : OutreachIntent) : Rat :=
  let score : Rat := 1/2
  let score := if personalization.companyReference then score + 1/10 else score
  let score := if personalization.recentNewsReference then score + 15/100 else score
  let score := if personalization.nicheSpecific then score + 1/10 else score
  let score := if personalization.locationSpecific then score + 1/10 else score
  let score := if 0 < personalization.customHooks.length then
    score + jsMin ((personalization.customHooks.length : Rat) * (5/100)) (1/10) else score
  let score := if intent.purpose ≠ .general then score + 5/100 else score
  jsMin score 1

/-- `generateMessage` (the generator half of the merged source file);
`Date.now()` and the `Math.random()` id suffix are the explicit `now`
and `randSuffix` arguments. -/
def generateMessage (intent : OutreachIntent) (target : Target)
    (companyIntelligence : Option CompanyIntelligence)
    (customContext : Option CustomContext) (randSuffix : String) (now : Int) : MessageDraft :=
  let channelConfig := getChannelConfig intent.channel
  let personalization := analyzePersonalization intent target companyIntelligence customContext
  let template := selectTemplate intent
  let body := renderTemplate template intent target companyIntelligence customContext
  let subject :=
    if channelConfig.features.hasSubject then
      some (generateSubjectLine intent target customContext)
    else none
  let qualityScore := calculateQualityScore personalization intent
  { id := "draft_" ++ toString now ++ "_" ++ randSuffix
    targetId := target.id
    target := target
    channel := intent.channel
    subject := subject
    body := body
    tone := intent.tone.getD .professional
    personalization := personalization
    qualityScore := qualityScore
    status := .draft
    generatedAt := now }

-- ============================================
-- followUpAutomation.ts: rules engine
-- ============================================

structure FollowUpConfigRule where
  trigger : FollowUpTrigger
  delayHours : Rat
  maxAttempts : Nat
  enabled : Bool
  deriving DecidableEq, Repr

structure FollowUpConfig where
  enabled : Bool
  rules : List FollowUpConfigRule
  deriving DecidableEq, Repr

/-- `createDefaultFollowUpConfig`. -/
def createDefaultFollowUpConfig : FollowUpConfig :=
  { enabled := true
    rules :=
      [ { trigger := .unopened_after_days, delayHours := 72, maxAttempts := 3, enabled := true },
        { trigger := .opened_no_reply, delayHours := 48, maxAttempts := 2, enabled := true },
        { trigger := .clicked_no_reply, delayHours := 24, maxAttempts := 2, enabled := true } ] }

/-- `config.rules.find(r => r.trigger === tr && r.enabled)`, the rule
lookup repeated inside `evaluateFollowUpTriggers`. -/
def findEnabledRule (config : FollowUpConfig) (tr : FollowUpTrigger) :
    Option FollowUpConfigRule :=
  config.rules.find? (fun r => r.trigger = tr ∧ r.enabled)

/-- `evaluateFollowUpTriggers` (`Date.now()` is the explicit `now`
argument, in epoch milliseconds; `message.sentAt &&` is the
`Option.isSome` guard). -/
def evaluateFollowUpTriggers (message : MessageDraft) (config : FollowUpConfig)
    (now : Int) : List FollowUpTrigger :=
  -- Check if message was opened but no reply
  let t1 :=
    if message.status = .opened ∧ (findEnabledRule config .opened_no_reply).isSome then
      [FollowUpTrigger.opened_no_reply]
    else []
  -- Check if message was clicked but no reply
  let t2 :=
    if message.status = .clicked ∧ (findEnabledRule config .clicked_no_reply).isSome then
      [FollowUpTrigger.clicked_no_reply]
    else []
  -- Check if message was unopened after delay
  let isOpened := message.status = .opened ∨ message.status = .clicked ∨
    message.status = .replied
  let t3 :=
    if (message.status = .sent ∨ message.status = .delivered) ∧ ¬isOpened then
      match message.sentAt with
      | some sentAt =>
        let hoursSinceSent : Rat := ((now - sentAt : Int) : Rat) / (1000 * 60 * 60)
        match findEnabledRule config .unopened_after_days with
        | some unopenedRule =>
          if unopenedRule.delayHours ≤ hoursSinceSent then
            [FollowUpTrigger.unopened_after_days]
          else []
        | none => []
      | none => []
    else []
  t1 ++ t2 ++ t3

/-- `FollowUpRule` of the types file: its `message` field is typed
`MessageDraft` but accessed with `rule.message?.body`, so it is embedded
as an `Option` (fields not read by the embedded functions are
omitted). -/
structure FollowUpRule where
  id : String
  campaignId : String
  trigger : FollowUpTrigger
  delay : Rat
  message : Option MessageDraft := none
  maxAttempts : Nat
  status : String
  deriving DecidableEq, Repr

/-- `generateFollowUpMessage` (the `typeof rule.message === "string"`
branch is dead under the declared `MessageDraft` field type, leaving the
`rule.message?.body || default` and `rule.message?.tone ||
"professional"` accesses). -/
def generateFollowUpMessage (originalMessage : Option MessageDraft) (rule : FollowUpRule)
    (now : Int) (randSuffix : String) : MessageDraft :=
  let followUpBody :=
    jsOr (rule.message.map (·.body)) "Hi \x7b\x7bname\x7d\x7d, I wanted to follow up."
  let followUpTone := (rule.message.map (·.tone)).getD .professional
  match originalMessage with
  | none =>
    -- Generate generic follow-up if original message is not available
    { id := "followup_" ++ toString now
      targetId := ""
      target :=
        { id := "", name := "there", source := "system", relevanceScore := 0,
          dataQuality := .medium, discoveredAt := now }
      channel := .email
      body := followUpBody
      tone := followUpTone
      personalization :=
        { companyReference := false, recentNewsReference := false,
          mutualConnection := false, nicheSpecific := false, locationSpecific := false,
          customHooks := ["Automated follow-up"] }
      qualityScore := 7/10
      status := .approved
      generatedAt := now }
  | some original =>
    -- Generate personalized follow-up based on original message
    { id := "followup_" ++ toString now ++ "_" ++ randSuffix
      targetId := original.targetId
      target := original.target
      channel := original.channel
      subject := some (jsTake followUpBody 100 ++ "...")
      body := followUpBody
      tone := followUpTone
      personalization := original.personalization
      qualityScore := original.qualityScore * (9/10)  -- Slightly lower quality for follow-up
      status := .approved
      generatedAt := now }

-- ============================================
-- orchestrator.ts: runAgent and its adapters
-- ============================================

/-- `IntentResult` of the OpenAI client. The TS fields are plain
strings that `runAgent` casts to the union types unchecked; they are
embedded at the union types. -/
structure IntentResult where
  success : Bool
  targetType : TargetType
  location : Option String := none
  niche : Option String := none
  purpose : OutreachPurpose
  count : Nat
  channel : OutreachChannel
  confidence : Rat
  clarification : Option String := none
  deriving DecidableEq, Repr

structure TargetResult where
  name : String
  title : Option String := none
  company : Option String := none
  website : Option String := none
  email : Option String := none
  phone : Option String := none
  location : Option String := none
  description : Option String := none
  relevanceScore : Rat
  source : String
  deriving DecidableEq, Repr

structure EmailResult where
  subject : String
  body : String
  personalization : List String
  qualityScore : Rat
  deriving DecidableEq, Repr

/-- `mapTargetResultToTarget`. -/
def mapTargetResultToTarget (r : TargetResult) (index : Nat) (now : Int) : Target :=
  let dataQuality : DataQuality :=
    if 8/10 ≤ r.relevanceScore then .high
    else if 1/2 ≤ r.relevanceScore then .medium
    else .low
  { id := "target_" ++ toString now ++ "_" ++ toString index
    name := r.name
    title := r.title
    company := r.company
    website := r.website
    email := r.email
    phone := r.phone
    location := r.location
    description := r.description
    source := r.source
    relevanceScore := r.relevanceScore
    dataQuality := dataQuality
    discoveredAt := now }

/-- Result type of `runAgent` (`progress` flattened into the stage,
message and percentage fields actually set by the source). -/
structure RunAgentResult where
  success : Bool
  campaign : Option Campaign := none
  progressStage : String
  progressMessage : String
  progressValue : Nat
  error : Option String := none
  deriving DecidableEq, Repr

/-- The messages array of the `Campaign` built by `runAgent`
(`emails.map((e, i) => ...)` with `emails` produced one-per-target by
`generateBulkEmails`, so message `i` pairs `gen targets[i]` with
`targets[i]`). -/
def runAgentMessages (channel : OutreachChannel) (niche location : Option String)
    (targets : List Target) (gen : Target → EmailResult) (now : Int) : List MessageDraft :=
  targets.enum.map fun (i, t) =>
    let e := gen t
    { id := "msg_" ++ toString i
      targetId := "target_" ++ toString i
      target :=
        { id := "target_" ++ toString i
          name := t.name
          title := t.title
          company := t.company
          website := t.website
          email := t.email
          location := t.location
          source := t.source
          relevanceScore := t.relevanceScore
          dataQuality := .medium
          discoveredAt := now }
      channel := channel
      subject := some e.subject
      body := e.body
      tone := .professional
      personalization :=
        { companyReference := true, recentNewsReference := false, mutualConnection := false,
          nicheSpecific := jsTruthy niche, locationSpecific := jsTruthy location,
          customHooks := e.personalization }
      qualityScore := e.qualityScore
      status := .draft
      generatedAt := now }

/-- `TargetType` keys as strings (TS template literals over the union
type). -/
def targetTypeKey : TargetType → String
  | .restaurant_owner => "restaurant_owner"
  | .hotel_owner => "hotel_owner"
  | .startup_founder => "startup_founder"
  | .creator => "creator"
  | .real_estate_broker => "real_estate_broker"
  | .business_owner => "business_owner"
  | .professional => "professional"
  | .generic => "generic"

/-- `runAgent`. The external adapters are explicit inputs: the OpenAI
`parseIntent` result `intentResult`, the `searchTargets` result
`rawTargets`, the per-target `generateEmail` result `gen` (applied by
`generateBulkEmails` to every target in order), and the id returned by
`saveCampaignToDatabase` (`saveId`). `Date.now()` is `now`. -/
def runAgent (intentResult : IntentResult) (rawTargets : List TargetResult)
    (gen : Target → EmailResult) (saveId : String) (now : Int) : RunAgentResult :=
  if !intentResult.success then
    { success := false
      progressStage := "error"
      progressMessage := jsOr intentResult.clarification "Could not understand your request"
      progressValue := 0
      error := intentResult.clarification }
  else
    let targets := rawTargets.enum.map fun (i, r) => mapTargetResultToTarget r i now
    if targets.length = 0 then
      { success := false
        progressStage := "no_targets"
        progressMessage := "Couldn\x27t find any targets. Try adjusting your search criteria."
        progressValue := 40
        error := some "No targets found" }
    else
      let campaign : Campaign :=
        { id := saveId
          name := purposeKey intentResult.purpose ++ " - " ++ targetTypeKey intentResult.targetType
          intent :=
            { channel := intentResult.channel
              targetType := intentResult.targetType
              location := intentResult.location
              targetNiche := intentResult.niche
              purpose := intentResult.purpose
              purposeDescription := some (purposeKey intentResult.purpose)
              count := targets.length
              tone := some .professional }
          status := .pending_approval
          targets := targets.enum.map fun (i, t) =>
            { id := "target_" ++ toString i
              name := t.name
              title := t.title
              company := t.company
              website := t.website
              email := t.email
              phone := t.phone
              location := t.location
              description := t.description
              source := t.source
              relevanceScore := t.relevanceScore
              dataQuality := if t.email ≠ some "not found" then .high else .medium
              discoveredAt := now }
          messages := runAgentMessages intentResult.channel intentResult.niche
            intentResult.location targets gen now
          stats :=
            { totalTargets := targets.length
              approvedMessages := 0, sentMessages := 0, deliveredMessages := 0,
              openedMessages := 0, clickedMessages := 0, repliedMessages := 0,
              bouncedMessages := 0, failedMessages := 0 }
          settings :=
            { channel := intentResult.channel
              followUpEnabled := true, followUpDelay := 72, followUpMaxAttempts := 3,
              trackOpens := true, trackClicks := true }
          createdAt := now
          updatedAt := now }
      { success := true
        campaign := some campaign
        progressStage := "complete"
        progressMessage := "Campaign ready for approval"
        progressValue := 100
        error := none }

-- ============================================
-- Approval handlers (campaigns page, part_007)
-- ============================================

/-- `handleApprove`: mark the matching message approved, leave
everything else (including `stats`) unchanged. -/
def handleApprove (campaign : Campaign) (messageId : String) : Campaign :=
  { campaign with messages := campaign.messages.map fun m =>
      if m.id = messageId then { m with status := .approved } else m }

/-- `handleReject` (note: the source marks the message `failed`, not
`rejected`). -/
def handleReject (campaign : Campaign) (messageId : String) : Campaign :=
  { campaign with messages := campaign.messages.map fun m =>
      if m.id = messageId then { m with status := .failed } else m }

/-- `handleEdit`: replace the body and set the status to `approved`. -/
def handleEdit (campaign : Campaign) (messageId : String) (newContent : String) : Campaign :=
  { campaign with messages := campaign.messages.map fun m =>
      if m.id = messageId then { m with body := newContent, status := .approved } else m }

/-- `handleSend` (`messageId` optional: `undefined` sends every
message). -/
def handleSend (campaign : Campaign) (messageId : Option String) : Campaign :=
  { campaign with messages := campaign.messages.map fun m =>
      if messageId.elim true (fun mid => m.id = mid) then { m with status := .sent } else m }

/-- `handleApproveAll`. -/
def handleApproveAll (campaign : Campaign) : Campaign :=
  { campaign with messages := campaign.messages.map fun m => { m with status := .approved } }

-- ============================================
-- Spec-side derived statistics (for the stats-purity claim)
-- ============================================

/-- Stated from the spec: recompute the `stats` counters as a pure
function of the `messages` list (one target per message at assembly
time, and one counter per message status that `CampaignStats`
tracks). -/
def statsRecomputedFromMessages (messages : List MessageDraft) : CampaignStats :=
  { totalTargets := messages.length
    approvedMessages := messages.countP (fun m => m.status = .approved)
    sentMessages := messages.countP (fun m => m.status = .sent)
    deliveredMessages := messages.countP (fun m => m.status = .delivered)
    openedMessages := messages.countP (fun m => m.status = .opened)
    clickedMessages := messages.countP (fun m => m.status = .clicked)
    repliedMessages := messages.countP (fun m => m.status = .replied)
    bouncedMessages := messages.countP (fun m => m.status = .bounced)
    failedMessages := messages.countP (fun m => m.status = .failed) }

-- ============================================
-- Shared concrete inputs for witnesses and counterexamples
-- ============================================

/-- A successful classifier result used by several concrete
instantiations below. -/
def sampleIntentResult : IntentResult :=
  { success := true, targetType := .hotel_owner, location := some "New York, NY",
    purpose := .partnership, count := 3, channel := .email, confidence := 9/10 }

/-- A discovered target used by several concrete instantiations. -/
def sampleTargetResult : TargetResult :=
  { name := "Sarah Johnson", title := some "Owner", company := some "Urban Bites",
    email := some "sarah@urbanbites.com", location := some "New York, NY",
    relevanceScore := 92/100, source := "web_search" }

/-- A deterministic stand-in for the external per-target email
generator. -/
def sampleGen : Target → EmailResult :=
  fun t => { subject := "Partnership with " ++ t.name, body := "Hi " ++ t.name ++ ",",
             personalization := [], qualityScore := 7/10 }


/-- Neutral default values used only to discharge `Option.getD` /
`List.getD` on concrete fixtures (never reached). -/
def trivialCampaign : Campaign :=
  { id := "", name := ""
    intent := { channel := .email, targetType := .generic, purpose := .general, count := 0 }
    status := .draft, targets := [], messages := []
    stats := ⟨0, 0, 0, 0, 0, 0, 0, 0, 0⟩
    settings := { channel := .email, followUpEnabled := false, followUpDelay := 0,
                  followUpMaxAttempts := 0, trackOpens := false, trackClicks := false }
    createdAt := 0, updatedAt := 0 }

/-- The campaign assembled by `runAgent` on the concrete sample
inputs. -/
def sampleAssembledCampaign : Campaign :=
  (runAgent sampleIntentResult [sampleTargetResult] sampleGen "cid" 0).campaign.getD
    trivialCampaign

/-- Neutral `MessageDraft` default for `List.getD` (never reached). -/
def trivialMessage : MessageDraft :=
  { id := "", targetId := ""
    target := { id := "", name := "", source := "", relevanceScore := 0,
                dataQuality := .low, discoveredAt := 0 }
    channel := .email, body := "", tone := .professional
    personalization := { companyReference := false, recentNewsReference := false,
                         mutualConnection := false, nicheSpecific := false,
                         locationSpecific := false, customHooks := [] }
    qualityScore := 0, status := .draft, generatedAt := 0 }

/-- A concrete bounced message for the follow-up counterexamples. -/
def sampleBouncedMessage : MessageDraft :=
  { trivialMessage with id := "m_bounced", status := .bounced, sentAt := some 0 }

/-- A rule set containing an enabled `bounced` rule. -/
def bouncedRuleConfig : FollowUpConfig :=
  { enabled := true
    rules := [ { trigger := .bounced, delayHours := 0, maxAttempts := 3, enabled := true } ] }

/-- A concrete opened message for the attempt-cap analysis. -/
def sampleOpenedMessage : MessageDraft :=
  { trivialMessage with id := "m_opened", status := .opened, sentAt := some 0 }

instance : IsTotal ChannelRecommendation confDesc :=
  ⟨fun a b => le_total b.confidence a.confidence⟩

instance : IsTrans ChannelRecommendation confDesc :=
  ⟨fun _ _ _ hab hbc => le_trans hbc hab⟩

/-- A generic-channel intent on which two distinct scoring rules emit
the same runner-up channel. -/
def dupAlternativesIntent : OutreachIntent :=
  { channel := .generic, targetType := .creator, purpose := .partnership,
    location := some "New York, NY", count := 5 }

/-- The intent that selects the `brand_deal` template. -/
def brandDealIntent : OutreachIntent :=
  { channel := .email, targetType := .creator, purpose := .brand_deal,
    purposeDescription := some "brand deal outreach", count := 3, tone := some .casual }

/-- A fully populated creator target. -/
def brandDealTarget : Target :=
  { id := "t1", name := "Alex", company := some "AlexMedia", niche := some "fitness",
    source := "web_search", relevanceScore := 9/10, dataQuality := .high, discoveredAt := 0 }


-- ============================================
-- C2: no targets means failure without a Campaign
-- ============================================

/-- C2: if discovery returns an empty list (and intent classification
succeeded), `runAgent` fails with the no-targets error and no
`Campaign`; moreover *every* failing run carries no `Campaign`. -/
theorem runAgent_no_targets_no_campaign :
    ∀ (ir : IntentResult) (gen : Target → EmailResult) (saveId : String) (now : Int),
      (ir.success = true →
        (runAgent ir [] gen saveId now).success = false ∧
        (runAgent ir [] gen saveId now).campaign = none ∧
        (runAgent ir [] gen saveId now).error = some "No targets found" ∧
        (runAgent ir [] gen saveId now).progressStage = "no_targets") ∧
      ∀ (rawTargets : List TargetResult),
        (runAgent ir rawTargets gen saveId now).success = false →
        (runAgent ir rawTargets gen saveId now).campaign = none := by
  intro ir gen saveId now
  constructor
  · intro h
    simp [runAgent, h]
  · intro rawTargets h
    by_cases hs : ir.success
    · by_cases hrt : rawTargets = []
      · simp [runAgent, hs, hrt]
      · simp [runAgent, hs, hrt] at h
    · simp [runAgent, hs]

/-- Witness for C2 at a concrete classifier result. -/
theorem runAgent_no_targets_no_campaign_witness :
    sampleIntentResult.success = true ∧
      (runAgent sampleIntentResult [] sampleGen "cid" 0).success = false ∧
      (runAgent sampleIntentResult [] sampleGen "cid" 0).campaign = none ∧
      (runAgent sampleIntentResult [] sampleGen "cid" 0).error = some "No targets found" ∧
      (runAgent sampleIntentResult [] sampleGen "cid" 0).progressStage = "no_targets" :=
  ⟨rfl, (runAgent_no_targets_no_campaign sampleIntentResult sampleGen "cid" 0).1 rfl⟩

-- ============================================
-- C9: generator determinism
-- ============================================

/-- C9: for a fixed intent, target, enrichment and context, two
generator calls differ at most in the random id and the timestamp:
`body`, `subject` and every other content field coincide. -/
theorem generateMessage_deterministic :
    ∀ (intent : OutreachIntent) (target : Target)
      (intel : Option CompanyIntelligence) (ctx : Option CustomContext)
      (r1 r2 : String) (t1 t2 : Int),
      (generateMessage intent target intel ctx r1 t1).body =
        (generateMessage intent target intel ctx r2 t2).body ∧
      (generateMessage intent target intel ctx r1 t1).subject =
        (generateMessage intent target intel ctx r2 t2).subject ∧
      (generateMessage intent target intel ctx r1 t1).personalization =
        (generateMessage intent target intel ctx r2 t2).personalization ∧
      (generateMessage intent target intel ctx r1 t1).qualityScore =
        (generateMessage intent target intel ctx r2 t2).qualityScore ∧
      (generateMessage intent target intel ctx r1 t1).tone =
        (generateMessage intent target intel ctx r2 t2).tone ∧
      (generateMessage intent target intel ctx r1 t1).channel =
        (generateMessage intent target intel ctx r2 t2).channel ∧
      (generateMessage intent target intel ctx r1 t1).targetId =
        (generateMessage intent target intel ctx r2 t2).targetId ∧
      (generateMessage intent target intel ctx r1 t1).status =
        (generateMessage intent target intel ctx r2 t2).status := by
  intro intent target intel ctx r1 r2 t1 t2
  exact ⟨rfl, rfl, rfl, rfl, rfl, rfl, rfl, rfl⟩

-- ============================================
-- C10: follow-up drafts are created already approved
-- ============================================

/-- C10: every `MessageDraft` returned by `generateFollowUpMessage` has
status `approved`, whether or not the original message is available. -/
theorem generateFollowUpMessage_status_approved :
    ∀ (originalMessage : Option MessageDraft) (rule : FollowUpRule)
      (now : Int) (randSuffix : String),
      (generateFollowUpMessage originalMessage rule now randSuffix).status =
        MessageStatus.approved := by
  intro originalMessage rule now randSuffix
  cases originalMessage <;> rfl

-- ============================================
-- C1: the parsed count is not clamped
-- ============================================

/-- C1 counterexample: an input implying 500 targets parses to
`count = 500`, not to the claimed upper bound 100. -/
theorem parseIntent_count_not_clamped_cex :
    (parseIntent "email 500 hotels in nyc about partnership").count = 500 ∧
      ¬((parseIntent "email 500 hotels in nyc about partnership").count ≤ 100) := by
  exact ⟨rfl, by decide⟩

/-- C1 amended: `parseIntent` returns the raw extracted count
(unclamped); out-of-range counts are instead rejected by
`validateIntent`, so any parse that passes validation has its count in
`[1, 100]`. -/
theorem parseIntent_count_validated :
    ∀ (input : String),
      (parseIntent input).count = extractCount (jsToLower input) ∧
      ((validateIntent (parseIntent input)).valid = true →
        1 ≤ (parseIntent input).count ∧ (parseIntent input).count ≤ 100) := by
  intro input
  refine ⟨rfl, fun h => ?_⟩
  simp [validateIntent] at h
  obtain ⟨⟨h1, h2⟩, -⟩ := h
  omega

/-- Witness for C1 amended at a concrete input that passes
validation. -/
theorem parseIntent_count_validated_witness :
    (validateIntent (parseIntent "email 5 hotel owners in nyc about partnership")).valid = true ∧
      1 ≤ (parseIntent "email 5 hotel owners in nyc about partnership").count ∧
      (parseIntent "email 5 hotel owners in nyc about partnership").count ≤ 100 :=
  ⟨of_decide_eq_true (by with_unfolding_all rfl),
    (parseIntent_count_validated "email 5 hotel owners in nyc about partnership").2
      (of_decide_eq_true (by with_unfolding_all rfl))⟩

-- ============================================
-- C3: stats vs. recomputation
-- ============================================

/-- C3 counterexample: after a single `handleApprove` transition the
stored `stats` no longer equals the recomputation from `messages` (the
handler updates only `messages`). -/
theorem campaign_stats_stale_after_approve_cex :
    (runAgent sampleIntentResult [sampleTargetResult] sampleGen "cid" 0).campaign =
      some sampleAssembledCampaign ∧
    sampleAssembledCampaign.stats =
      statsRecomputedFromMessages sampleAssembledCampaign.messages ∧
    (handleApprove sampleAssembledCampaign "msg_0").stats ≠
      statsRecomputedFromMessages (handleApprove sampleAssembledCampaign "msg_0").messages := by
  refine ⟨of_decide_eq_true (by with_unfolding_all rfl),
    of_decide_eq_true (by with_unfolding_all rfl),
    of_decide_eq_true (by with_unfolding_all rfl)⟩

/-- C3 amended: the stored `stats` equals the recomputation from
`messages` at assembly time, and every approval-stage handler leaves
`stats` untouched while rewriting `messages` — so the stored `stats` is
a snapshot, not kept equal to the recomputation across transitions. -/
theorem campaign_stats_recomputed_at_assembly_only :
    (∀ (ir : IntentResult) (rawTargets : List TargetResult) (gen : Target → EmailResult)
        (saveId : String) (now : Int) (c : Campaign),
        (runAgent ir rawTargets gen saveId now).campaign = some c →
        c.stats = statsRecomputedFromMessages c.messages) ∧
    (∀ (c : Campaign) (mid : String), (handleApprove c mid).stats = c.stats) ∧
    (∀ (c : Campaign) (mid : String), (handleReject c mid).stats = c.stats) ∧
    (∀ (c : Campaign) (mid newContent : String),
      (handleEdit c mid newContent).stats = c.stats) ∧
    (∀ (c : Campaign) (mid : Option String), (handleSend c mid).stats = c.stats) := by
  refine ⟨?_, fun c mid => rfl, fun c mid => rfl, fun c mid nb => rfl, fun c mid => rfl⟩
  intro ir rawTargets gen saveId now c h
  by_cases hs : ir.success
  · by_cases hrt : rawTargets = []
    · simp [runAgent, hs, hrt] at h
    · simp [runAgent, hs, hrt] at h
      subst h
      simp [statsRecomputedFromMessages, runAgentMessages, List.countP_map,
        Function.comp_def, List.countP_eq_zero]
  · simp [runAgent, hs] at h

/-- Witness for C3 amended at the sample campaign. -/
theorem campaign_stats_recomputed_at_assembly_only_witness :
    sampleAssembledCampaign.stats =
        statsRecomputedFromMessages sampleAssembledCampaign.messages ∧
      (handleApprove sampleAssembledCampaign "msg_0").stats = sampleAssembledCampaign.stats :=
  ⟨campaign_stats_recomputed_at_assembly_only.1 sampleIntentResult [sampleTargetResult]
      sampleGen "cid" 0 sampleAssembledCampaign (of_decide_eq_true (by with_unfolding_all rfl)),
    campaign_stats_recomputed_at_assembly_only.2.1 sampleAssembledCampaign "msg_0"⟩

-- ============================================
-- C4: editing a draft approves it
-- ============================================

/-- C4 counterexample: editing the (draft) sample message rewrites its
body but moves its status to `approved`, not back to `draft`. -/
theorem handleEdit_leaves_draft_cex :
    sampleAssembledCampaign.messages.map (fun m => m.status) = [MessageStatus.draft] ∧
    (handleEdit sampleAssembledCampaign "msg_0" "Updated body").messages.map
      (fun m => m.status) = [MessageStatus.approved] ∧
    (handleEdit sampleAssembledCampaign "msg_0" "Updated body").messages.map
      (fun m => m.body) = ["Updated body"] := by
  refine ⟨of_decide_eq_true (by with_unfolding_all rfl),
    of_decide_eq_true (by with_unfolding_all rfl),
    of_decide_eq_true (by with_unfolding_all rfl)⟩

/-- C4 amended: `handleEdit` rewrites the body of the matching message
*and sets its status to `approved`* (editing implicitly approves); all
other messages are untouched. -/
theorem handleEdit_updates_body_and_approves :
    ∀ (c : Campaign) (mid newContent : String) (i : Nat) (d : MessageDraft),
      i < c.messages.length →
      (handleEdit c mid newContent).messages.getD i d =
        (let m0 := c.messages.getD i d
         if m0.id = mid then { m0 with body := newContent, status := .approved } else m0) := by
  intro c mid newContent i d hi
  simp only [handleEdit]
  rw [List.getD_eq_getElem?_getD, List.getElem?_map, List.getD_eq_getElem?_getD]
  rcases hx : c.messages[i]? with - | m
  · exact absurd (List.getElem?_eq_none_iff.mp hx) (by omega)
  · simp

/-- Witness for C4 amended at the sample campaign. -/
theorem handleEdit_updates_body_and_approves_witness :
    0 < sampleAssembledCampaign.messages.length ∧
      (handleEdit sampleAssembledCampaign "msg_0" "Updated body").messages.getD 0
          trivialMessage =
        (let m0 := sampleAssembledCampaign.messages.getD 0 trivialMessage
         if m0.id = "msg_0" then
           { m0 with body := "Updated body", status := .approved }
         else m0) :=
  ⟨of_decide_eq_true (by with_unfolding_all rfl),
    handleEdit_updates_body_and_approves sampleAssembledCampaign "msg_0" "Updated body" 0
      trivialMessage (of_decide_eq_true (by with_unfolding_all rfl))⟩

-- ============================================
-- C5: exact trigger conditions
-- ============================================

/-- C5 counterexample: a bounced message with an enabled `bounced` rule
fires nothing — `evaluateFollowUpTriggers` has no `bounced` case at
all. -/
theorem bounced_trigger_never_fires_cex :
    evaluateFollowUpTriggers sampleBouncedMessage bouncedRuleConfig 1000000000 = [] := by
  with_unfolding_all rfl

/-- C5 amended: the evaluator fires exactly three trigger kinds, each
additionally gated on an enabled rule of that kind being present in the
rule set: `opened_no_reply` iff the status is `opened`,
`clicked_no_reply` iff the status is `clicked`, and
`unopened_after_days` iff the status is `sent` or `delivered`, a send
time is recorded, and at least `delayHours` hours of the first enabled
unopened rule have elapsed. `bounced` (and `manual`) never fire. -/
theorem evaluateFollowUpTriggers_spec :
    ∀ (message : MessageDraft) (config : FollowUpConfig) (now : Int) (tr : FollowUpTrigger),
      tr ∈ evaluateFollowUpTriggers message config now ↔
      ((tr = .opened_no_reply ∧ message.status = .opened ∧
          (findEnabledRule config .opened_no_reply).isSome) ∨
       (tr = .clicked_no_reply ∧ message.status = .clicked ∧
          (findEnabledRule config .clicked_no_reply).isSome) ∨
       (tr = .unopened_after_days ∧
          (message.status = .sent ∨ message.status = .delivered) ∧
          ∃ (sentAt : Int) (rule : FollowUpConfigRule), message.sentAt = some sentAt ∧
            findEnabledRule config .unopened_after_days = some rule ∧
            rule.delayHours ≤ ((now - sentAt : Int) : Rat) / (1000 * 60 * 60))) := by
  intro message config now tr
  unfold evaluateFollowUpTriggers
  rcases hsent : message.sentAt with - | s <;>
    rcases hfind : findEnabledRule config .unopened_after_days with - | rule <;>
      cases hst : message.status <;>
        simp [hsent, hfind, List.mem_append, and_comm]

-- ============================================
-- C8: no attempt cap exists
-- ============================================

/-- C8 failing evaluation: the default `opened_no_reply` rule caps
`maxAttempts` at 2, yet `evaluateFollowUpTriggers` — a pure function
with no attempt bookkeeping anywhere in the pipeline — fires the
trigger on *every* evaluation of an unchanged `opened` message,
including the third (`maxAttempts + 1`-th) one. -/
theorem evaluateFollowUpTriggers_ignores_maxAttempts :
    (findEnabledRule createDefaultFollowUpConfig .opened_no_reply).map
        (fun r => r.maxAttempts) = some 2 ∧
      evaluateFollowUpTriggers sampleOpenedMessage createDefaultFollowUpConfig 3600000 =
        [FollowUpTrigger.opened_no_reply] ∧
      (∀ (now1 now2 : Int),
        evaluateFollowUpTriggers sampleOpenedMessage createDefaultFollowUpConfig now1 =
          evaluateFollowUpTriggers sampleOpenedMessage createDefaultFollowUpConfig now2) := by
  refine ⟨by with_unfolding_all rfl, by with_unfolding_all rfl, fun now1 now2 => rfl⟩


-- ============================================
-- C6: channel decision vs. alternatives
-- ============================================

/-- Helper: the default-fallback list shape of `analyzeChannelFit` is
never empty. -/
theorem ifEmpty_ne_nil {α : Type} (l : List α) (d : α) :
    (if l.length = 0 then [d] else l) ≠ [] := by
  split_ifs with h
  · simp
  · simpa [List.length_eq_zero] using h

/-- Helper: `analyzeChannelFit` always returns at least one candidate,
so the `sorted[0]` read inside `selectChannel` is safe. -/
theorem analyzeChannelFit_ne_nil (intent : OutreachIntent) :
    analyzeChannelFit intent ≠ [] := by
  unfold analyzeChannelFit
  exact ifEmpty_ne_nil _ _

/-- C6 amended: for a generic-channel intent the decision is a
highest-confidence candidate — its confidence dominates every candidate
(hence every alternatives entry) — and a channel is listed in
`alternatives` exactly when it differs from the decision channel and
some candidate carries it with confidence above 0.3. The list keeps one
entry per such candidate, so it may repeat a channel. -/
theorem selectChannel_top_and_alternatives :
    ∀ (intent : OutreachIntent), intent.channel = .generic →
      (∀ r ∈ analyzeChannelFit intent,
          r.confidence ≤ (selectChannel intent).confidence) ∧
      (∀ ch : OutreachChannel,
        ch ∈ (selectChannel intent).alternatives ↔
          (ch ≠ (selectChannel intent).channel ∧
            ∃ r ∈ analyzeChannelFit intent, r.channel = ch ∧ r.confidence > 3/10)) := by
  intro intent hgen
  have hsorted : List.Sorted confDesc ((analyzeChannelFit intent).insertionSort confDesc) :=
    List.sorted_insertionSort confDesc _
  have hperm : List.Perm ((analyzeChannelFit intent).insertionSort confDesc)
      (analyzeChannelFit intent) :=
    List.perm_insertionSort confDesc _
  rcases hs : (analyzeChannelFit intent).insertionSort confDesc with - | ⟨top, rest⟩
  · have hnil : List.Perm [] (analyzeChannelFit intent) := hs ▸ hperm
    exact absurd hnil.nil_eq.symm (analyzeChannelFit_ne_nil intent)
  · rw [hs] at hsorted hperm
    constructor
    · simp only [selectChannel, hgen, ne_eq, not_true_eq_false, if_false, hs]
      intro r hr
      rcases List.mem_cons.mp (hperm.mem_iff.mpr hr) with h | h
      · exact le_of_eq (congrArg ChannelRecommendation.confidence h)
      · exact (List.sorted_cons.mp hsorted).1 r h
    · intro ch
      simp only [selectChannel, hgen, ne_eq, not_true_eq_false, if_false, hs,
        List.mem_map, List.mem_filter, decide_eq_true_eq]
      constructor
      · rintro ⟨r, ⟨hrmem, hne, hgt⟩, hch⟩
        subst hch
        exact ⟨hne, r, hperm.mem_iff.mp hrmem, rfl, hgt⟩
      · rintro ⟨hne, r, hrfit, hch, hgt⟩
        exact ⟨r, ⟨hperm.mem_iff.mpr hrfit, hch ▸ hne, hgt⟩, hch⟩


/-- C6 counterexample: the alternatives list is *not* a list of
distinct channels — the creator rule and the location rule both emit
`email`, and the filter only removes the winning channel. -/
theorem selectChannel_alternatives_duplicate_cex :
    (selectChannel dupAlternativesIntent).alternatives =
        [OutreachChannel.email, OutreachChannel.email] ∧
      ¬(selectChannel dupAlternativesIntent).alternatives.Nodup :=
  ⟨by with_unfolding_all rfl, of_decide_eq_true (by with_unfolding_all rfl)⟩

/-- Witness for C6 amended at the duplicate-producing intent. -/
theorem selectChannel_top_and_alternatives_witness :
    dupAlternativesIntent.channel = .generic ∧
      (∀ r ∈ analyzeChannelFit dupAlternativesIntent,
        r.confidence ≤ (selectChannel dupAlternativesIntent).confidence) ∧
      (OutreachChannel.email ∈ (selectChannel dupAlternativesIntent).alternatives ↔
        (OutreachChannel.email ≠ (selectChannel dupAlternativesIntent).channel ∧
          ∃ r ∈ analyzeChannelFit dupAlternativesIntent,
            r.channel = OutreachChannel.email ∧ r.confidence > 3/10)) :=
  ⟨rfl, (selectChannel_top_and_alternatives dupAlternativesIntent rfl).1,
    (selectChannel_top_and_alternatives dupAlternativesIntent rfl).2 OutreachChannel.email⟩

-- ============================================
-- C7: an unresolved placeholder survives rendering
-- ============================================

set_option maxRecDepth 10000 in
/-- C7 failing input: the `brand_deal` template declares (and its body
uses) the variable `specific_content`, but `renderTemplate` has no
substitution for that name (only for `specific_content_reference`), so
the rendered body still contains the literal token. -/
theorem renderTemplate_leaves_specific_content_token :
    (selectTemplate brandDealIntent).id = "brand_deal" ∧
      "specific_content" ∈ (selectTemplate brandDealIntent).vars ∧
      containsSub "\x7b\x7bspecific_content\x7d\x7d".data
        (generateMessage brandDealIntent brandDealTarget none none "r" 0).body.data = true :=
  ⟨by with_unfolding_all rfl, of_decide_eq_true (by with_unfolding_all rfl),
    by with_unfolding_all rfl⟩
